import Mathlib

/-
Shallow embedding of the cart mutation engine of Joshua-takyi/cliq
(Go sources: the MongoDB-backed cart operations AddToCart, UpdateCartItem,
RemoveCartItem, ClearCart, GetUserCart, together with the Cart / CartItem /
Product / CartActions data model).

Modelling conventions:
- MongoDB ObjectIDs are modelled as natural numbers; 0 plays the role of the
  zero ObjectID (`primitive.ObjectID.IsZero`). Fresh IDs produced by
  `primitive.NewObjectID()` (and by the store on insert) are passed in as
  explicit `fresh...` parameters.
- Go float64 money amounts are modelled as exact rationals; `math.Round`
  (round half away from zero) becomes `goRound`, and the ubiquitous
  `math.Round(x*100)/100` becomes `round2`.
- Go `int` quantities and stock counts are modelled as integers.
- The store is modelled per owner: an `Option Cart` is the owner's cart
  record (`none` = no document, the `mongo.ErrNoDocuments` case). Each
  operation runs inside a transaction in the source, so it is modelled as a
  function from the pre-state to `Except CartError (Option Cart)`: an `.ok`
  result is the committed post-state, an `.error` result means the
  transaction rolled back and the store is unchanged (see `commit`).
- Timestamps (CreatedAt / UpdatedAt) carry no cart logic and are omitted.
- `validate.Struct(item)` with the CartItem tags (`ProductID` required,
  `Quantity` required,min=1, `Color` required) becomes `validateItem`.
-/

namespace Cliq

/-- Go `math.Round`: round to the nearest integer, half away from zero.
Stated via the executable `Rat.floor` so that concrete carts evaluate. -/
def goRound (q : ℚ) : ℤ :=
  if q < 0 then -Rat.floor (-q + 1 / 2) else Rat.floor (q + 1 / 2)

/-- Go `math.Round(x*100)/100`: round half away from zero to 2 decimals. -/
def round2 (q : ℚ) : ℚ :=
  (goRound (q * 100) : ℚ) / 100

/-- Product document fields consulted by the cart engine. -/
structure Product where
  price : ℚ
  discount : ℚ
  stock : ℤ
  title : String
  slug : String
  images : List String
deriving DecidableEq, Repr

/-- CartItem document (one line of a cart). -/
structure CartItem where
  id : ℕ
  productID : ℕ
  quantity : ℤ
  color : String
  image : String
  slug : String
  title : String
  price : ℚ
  model : String
  totalPrice : ℚ
deriving DecidableEq, Repr

/-- Cart document (per-user, keyed by `userID`). -/
structure Cart where
  id : ℕ
  userID : ℕ
  items : List CartItem
  totalAmount : ℚ
deriving DecidableEq, Repr

/-- The CartActions flags of UpdateCartItem; neither flag set means a direct
quantity update (SetQuantity). -/
structure CartActions where
  increment : Bool
  decrement : Bool
deriving DecidableEq, Repr

/-- Typed rendering of the distinct error returns of the cart operations. -/
inductive CartError where
  | validationError
  | productNotFound
  | quantityNotPositive
  | stockExceeded (requested available : ℤ)
  | cartNotFound
  | itemNotFound
  | userMismatch
deriving DecidableEq, Repr

/-- The go-playground validator applied to CartItem's tags: `ProductID`
required (non-zero ObjectID), `Quantity` required,min=1, `Color` required
(non-empty). -/
def validateItem (item : CartItem) : Bool :=
  item.productID != 0 && (decide (1 ≤ item.quantity) && item.color != "")

/-- The matching condition of the cart loops:
`cartItem.ProductID == item.ProductID && cartItem.Color == item.Color &&
cartItem.Model == item.Model`. -/
def sameVariant (cartItem item : CartItem) : Bool :=
  cartItem.productID == item.productID &&
    (cartItem.color == item.color && cartItem.model == item.model)

/-- Effective unit price: if `product.Discount > 0` the code computes
`discountAmount := Price * (Discount / 100)` and rounds `Price -
discountAmount` to 2 decimals, else the raw price is used. -/
def effectivePrice (product : Product) : ℚ :=
  if product.discount > 0 then
    round2 (product.price - product.price * (product.discount / 100))
  else product.price

/-- Backfill of display fields performed by AddToCart (Image, Title, Slug). -/
def setImageTitleSlug (product : Product) (item : CartItem) : CartItem :=
  let it1 := if item.image = "" ∧ product.images ≠ [] then
    { item with image := product.images.headD "" } else item
  let it2 := if it1.title = "" then { it1 with title := product.title } else it1
  if it2.slug = "" then { it2 with slug := product.slug } else it2

/-- Backfill of display fields performed by UpdateCartItem (Image, Slug
only; UpdateCartItem never backfills Title). -/
def setImageSlug (product : Product) (item : CartItem) : CartItem :=
  let it1 := if item.image = "" ∧ product.images ≠ [] then
    { item with image := product.images.headD "" } else item
  if it1.slug = "" then { it1 with slug := product.slug } else it1

/-- The price/total assignment block repeated at each creation site:
`item.Price = effective price; item.TotalPrice = round2(item.Price *
item.Quantity)`. -/
def pricedItem (product : Product) (item : CartItem) : CartItem :=
  { item with
      price := effectivePrice product,
      totalPrice := round2 (effectivePrice product * (item.quantity : ℚ)) }

/-- The incoming item as AddToCart prepares it before the transaction:
price and total assigned, display fields backfilled, and a fresh ObjectID
assigned when the caller-supplied ID is zero. -/
def preparedAddItem (product : Product) (freshItemID : ℕ) (item : CartItem) :
    CartItem :=
  let it := setImageTitleSlug product (pricedItem product item)
  if it.id = 0 then { it with id := freshItemID } else it

/-- The line UpdateCartItem inserts when it creates one (cart absent, or no
matching line under Increment): quantity forced to 1 when `inc` is set,
price and total assigned, Image/Slug backfilled. -/
def preparedUpdateItem (product : Product) (item : CartItem) (inc : Bool) :
    CartItem :=
  setImageSlug product
    (pricedItem product (if inc then { item with quantity := 1 } else item))

/-- The in-place update AddToCart performs on a matching line: quantity
increased by the request, total recomputed from the line's stored price,
display fields backfilled; ID and price snapshot are kept. -/
def mergedOf (product : Product) (item cartItem : CartItem) : CartItem :=
  setImageTitleSlug product
    { cartItem with
        quantity := cartItem.quantity + item.quantity,
        totalPrice :=
          round2 (cartItem.price * ((cartItem.quantity + item.quantity : ℤ) : ℚ)) }

/-- The AddToCart merge loop: find the first line matching the incoming item
(by product, color, model) and update it; `none` means no line matched
(`itemExists` stayed false). -/
def mergeItem (product : Product) (item : CartItem) :
    List CartItem → Option (List CartItem)
  | [] => none
  | c :: rest =>
    if sameVariant c item then some (mergedOf product item c :: rest)
    else
      match mergeItem product item rest with
      | none => none
      | some rest2 => some (c :: rest2)

/-- A line after UpdateCartItem applies a new quantity `q`: total recomputed
from the stored price, Image/Slug backfilled. -/
def updatedLine (product : Product) (c : CartItem) (q : ℤ) : CartItem :=
  setImageSlug product
    { c with quantity := q, totalPrice := round2 (c.price * (q : ℚ)) }

/-- Shared tail of the UpdateCartItem match branch: after the action fixed
the new quantity, reject it if it exceeds stock, else store the updated
line. -/
def stockCheckedUpdate (product : Product) (c : CartItem) (q : ℤ)
    (rest : List CartItem) : Except CartError (List CartItem) :=
  if q > product.stock then .error (.stockExceeded q product.stock)
  else .ok (updatedLine product c q :: rest)

/-- The body UpdateCartItem runs on the first matching line `c`:
Increment bumps the quantity, Decrement lowers it and removes the line when
it reaches 0 (skipping the stock check), otherwise the caller's quantity is
written directly; the stock check applies to the resulting quantity. -/
def applyAction (product : Product) (item : CartItem) (actions : CartActions)
    (c : CartItem) (rest : List CartItem) : Except CartError (List CartItem) :=
  if actions.increment then
    stockCheckedUpdate product c (c.quantity + 1) rest
  else if actions.decrement then
    if c.quantity - 1 ≤ 0 then .ok rest
    else stockCheckedUpdate product c (c.quantity - 1) rest
  else stockCheckedUpdate product c item.quantity rest

/-- The UpdateCartItem search loop: act on the first line matching the
incoming item; `none` means no line matched (`itemFound` stayed false). -/
def updateLoop (product : Product) (item : CartItem) (actions : CartActions) :
    List CartItem → Option (Except CartError (List CartItem))
  | [] => none
  | c :: rest =>
    if sameVariant c item then some (applyAction product item actions c rest)
    else
      match updateLoop product item actions rest with
      | none => none
      | some (.error e) => some (.error e)
      | some (.ok rest2) => some (.ok (c :: rest2))

/-- Cart total recomputation: sum the lines' TotalPrice into an accumulator
starting at 0, then round to 2 decimals. -/
def cartTotal (items : List CartItem) : ℚ :=
  round2 (items.foldl (fun acc it => acc + it.totalPrice) 0)

/-- AddToCart: validate the item, look the product up, check quantity and
stock, prepare the incoming line, then (in one transaction) insert a fresh
one-line cart or merge/append into the existing cart and recompute the
total. -/
def AddToCart (lookup : ℕ → Option Product) (freshItemID freshCartID uid : ℕ)
    (item : CartItem) (st : Option Cart) : Except CartError (Option Cart) :=
  if validateItem item then
    match lookup item.productID with
    | none => .error .productNotFound
    | some product =>
      if item.quantity ≤ 0 then .error .quantityNotPositive
      else if item.quantity > product.stock then
        .error (.stockExceeded item.quantity product.stock)
      else
        let it := preparedAddItem product freshItemID item
        match st with
        | none =>
          .ok (some { id := freshCartID, userID := uid, items := [it],
                      totalAmount := it.totalPrice })
        | some cart =>
          match mergeItem product it cart.items with
          | some items =>
            .ok (some { cart with items := items, totalAmount := cartTotal items })
          | none =>
            let items := cart.items ++ [it]
            .ok (some { cart with items := items, totalAmount := cartTotal items })
  else .error .validationError

/-- UpdateCartItem: validate the item and look the product up; if no cart
document exists, insert a fresh one-line cart (quantity forced to 1 only
when Increment is set); otherwise act on the first matching line, or — when
no line matches — append a quantity-1 line if Increment is set and fail
with item-not-found otherwise; finally recompute the total. -/
def UpdateCartItem (lookup : ℕ → Option Product) (freshCartID uid : ℕ)
    (item : CartItem) (actions : CartActions) (st : Option Cart) :
    Except CartError (Option Cart) :=
  if validateItem item then
    match lookup item.productID with
    | none => .error .productNotFound
    | some product =>
      match st with
      | none =>
        let it := preparedUpdateItem product item actions.increment
        .ok (some { id := freshCartID, userID := uid, items := [it],
                    totalAmount := it.totalPrice })
      | some cart =>
        match updateLoop product item actions cart.items with
        | some (.error e) => .error e
        | some (.ok items) =>
          .ok (some { cart with items := items, totalAmount := cartTotal items })
        | none =>
          if actions.increment then
            let items := cart.items ++ [preparedUpdateItem product item true]
            .ok (some { cart with items := items, totalAmount := cartTotal items })
          else .error .itemNotFound
  else .error .validationError

/-- RemoveCartItem: require the cart, locate the line by its unique ID,
splice it out (`append(items[:i], items[i+1:]...)`), then delete the cart
document when no lines remain and otherwise store the recomputed cart. -/
def RemoveCartItem (uid cartItemID : ℕ) (st : Option Cart) :
    Except CartError (Option Cart) :=
  match st with
  | none => .error .cartNotFound
  | some cart =>
    match cart.items.findIdx? (fun it => it.id == cartItemID) with
    | none => .error .itemNotFound
    | some i =>
      let items := cart.items.take i ++ cart.items.drop (i + 1)
      if items.isEmpty then .ok none
      else .ok (some { cart with items := items, totalAmount := cartTotal items })

/-- ClearCart: require the cart, check the owner matches, then store the
cart with an empty item list and total 0 (the document is kept). -/
def ClearCart (uid : ℕ) (st : Option Cart) : Except CartError (Option Cart) :=
  match st with
  | none => .error .cartNotFound
  | some cart =>
    if cart.userID ≠ uid then .error .userMismatch
    else .ok (some { cart with items := [], totalAmount := 0 })

/-- GetUserCart: return the owner's cart; when none exists, create-on-read —
insert and return a fresh empty cart for the owner. The result pairs the
returned cart with the post-state of the store. -/
def GetUserCart (freshCartID uid : ℕ) (st : Option Cart) :
    Except CartError (Cart × Option Cart) :=
  match st with
  | none =>
    let newCart : Cart :=
      { id := freshCartID, userID := uid, items := [], totalAmount := 0 }
    .ok (newCart, some newCart)
  | some cart =>
    if cart.userID ≠ uid then .error .userMismatch
    else .ok (cart, st)

/-- Transactional commit: an `.ok` result replaces the stored state, an
`.error` result rolls back and leaves the store unchanged. -/
def commit (st : Option Cart) (r : Except CartError (Option Cart)) : Option Cart :=
  match r with
  | .ok st2 => st2
  | .error _ => st

/-- The cart-total invariant: a stored cart's total amount is the rounded
sum of its lines' total prices. -/
def totalInvariant : Option Cart → Prop
  | none => True
  | some cart =>
    cart.totalAmount = round2 ((cart.items.map CartItem.totalPrice).sum)

/-- The quantity invariant: every line of a stored cart has quantity ≥ 1. -/
def qtyInv (st : Option Cart) : Prop :=
  ∀ cart, st = some cart → ∀ c ∈ cart.items, 1 ≤ c.quantity

/-- States of one owner's cart record reachable through the engine's
committed operations, starting from no cart. -/
inductive Reachable : Option Cart → Prop where
  | init : Reachable none
  | add (lookup : ℕ → Option Product) (fi fc uid : ℕ) (item : CartItem)
      (st st' : Option Cart) : Reachable st →
      AddToCart lookup fi fc uid item st = .ok st' → Reachable st'
  | update (lookup : ℕ → Option Product) (fc uid : ℕ) (item : CartItem)
      (actions : CartActions) (st st' : Option Cart) : Reachable st →
      UpdateCartItem lookup fc uid item actions st = .ok st' → Reachable st'
  | remove (uid itemID : ℕ) (st st' : Option Cart) : Reachable st →
      RemoveCartItem uid itemID st = .ok st' → Reachable st'
  | clear (uid : ℕ) (st st' : Option Cart) : Reachable st →
      ClearCart uid st = .ok st' → Reachable st'
  | get (fc uid : ℕ) (c : Cart) (st st' : Option Cart) : Reachable st →
      GetUserCart fc uid st = .ok (c, st') → Reachable st'

/-- Concrete product used by the worked examples: price 100, discount 10%,
ample stock. -/
def exProduct : Product :=
  { price := 100, discount := 10, stock := 100, title := "Phone",
    slug := "phone", images := ["img"] }

/-- Concrete product catalogue: product 1 is `exProduct`. -/
def exLookup : ℕ → Option Product :=
  fun pid => if pid = 1 then some exProduct else none

/-- Concrete request: quantity 3 of product 1, variant (red, m1). -/
def exItem3 : CartItem :=
  { id := 0, productID := 1, quantity := 3, color := "red", image := "",
    slug := "", title := "", price := 0, model := "m1", totalPrice := 0 }

/-- Concrete request: quantity 2 of the same variant as `exItem3`. -/
def exItem2 : CartItem :=
  { exItem3 with quantity := 2 }

/-- The line stored after adding `exItem3` to an empty store: unit price
90, line total 270, fresh ID 10, display fields backfilled. -/
def exLine1 : CartItem :=
  { id := 10, productID := 1, quantity := 3, color := "red", image := "img",
    slug := "phone", title := "Phone", price := 90, model := "m1",
    totalPrice := 270 }

/-- The cart stored after adding `exItem3` to an empty store. -/
def exCart1 : Cart :=
  { id := 20, userID := 7, items := [exLine1], totalAmount := 270 }

/-- The cart stored after the second add (`exItem2`, same variant): one
line at quantity 5, line total 450, cart total 450. -/
def exCart2 : Cart :=
  { id := 20, userID := 7,
    items := [{ exLine1 with quantity := 5, totalPrice := 450 }],
    totalAmount := 450 }

/-- The line UpdateCartItem creates from an empty store for `exItem2` with
no action flag set (SetQuantity): the caller-supplied quantity 2 is kept
and Title is not backfilled. -/
def exLineU : CartItem :=
  { id := 0, productID := 1, quantity := 2, color := "red", image := "img",
    slug := "phone", title := "", price := 90, model := "m1",
    totalPrice := 180 }

/-- The cart UpdateCartItem creates from an empty store for `exItem2` with
no action flag set (SetQuantity). -/
def exCartU : Cart :=
  { id := 9, userID := 7, items := [exLineU], totalAmount := 180 }

/-- A stored line of `exProduct`'s variant at quantity 1 (line total 90). -/
def exLineQ1 : CartItem :=
  { exLine1 with quantity := 1, totalPrice := 90 }

/-- A cart holding `exLineQ1` as its only line. -/
def exCartQ1 : Cart :=
  { id := 20, userID := 7, items := [exLineQ1], totalAmount := 90 }

/-- A low-stock product: price 100, no discount, stock 2. -/
def exProductLow : Product :=
  { price := 100, discount := 0, stock := 2, title := "Phone",
    slug := "phone", images := ["img"] }

/-- Catalogue for the low-stock product: product 1 is `exProductLow`. -/
def exLookupLow : ℕ → Option Product :=
  fun pid => if pid = 1 then some exProductLow else none

/-- A stored line of `exProductLow`'s variant at quantity 2. -/
def exLineB : CartItem :=
  { id := 10, productID := 1, quantity := 2, color := "red", image := "img",
    slug := "phone", title := "Phone", price := 100, model := "m1",
    totalPrice := 200 }

/-- A cart holding `exLineB` as its only line (total 200). -/
def exCartB : Cart :=
  { id := 20, userID := 7, items := [exLineB], totalAmount := 200 }

/-- A second variant of product 1 (different color) used to check that a
non-matching add is appended as a new line. -/
def exItemBlue : CartItem :=
  { id := 0, productID := 1, quantity := 4, color := "blue", image := "",
    slug := "", title := "", price := 0, model := "m1", totalPrice := 0 }

/-- The line stored for `exItemBlue`: unit price 90, line total 360. -/
def exLineBlue : CartItem :=
  { id := 12, productID := 1, quantity := 4, color := "blue", image := "img",
    slug := "phone", title := "Phone", price := 90, model := "m1",
    totalPrice := 360 }

/-- The cart stored after appending `exItemBlue` to `exCart2`
(450 + 360 = 810). -/
def exCart3 : Cart :=
  { id := 20, userID := 7,
    items := [{ exLine1 with quantity := 5, totalPrice := 450 }, exLineBlue],
    totalAmount := 810 }

theorem ratFloor_eq_floor (a : ℚ) : a.floor = ⌊a⌋ := by
  rw [Rat.floor_def', Rat.floor_def]

theorem goRound_eq (q : ℚ) :
    goRound q = if q < 0 then -⌊-q + 1 / 2⌋ else ⌊q + 1 / 2⌋ := by
  rw [goRound, ratFloor_eq_floor, ratFloor_eq_floor]

theorem floor_intCast_add_half (n : ℤ) : ⌊(n : ℚ) + 1 / 2⌋ = n := by
  rw [Int.floor_int_add]
  norm_num

theorem goRound_intCast (n : ℤ) : goRound (n : ℚ) = n := by
  rw [goRound_eq]
  split
  · rw [show -(n : ℚ) + 1 / 2 = ((-n : ℤ) : ℚ) + 1 / 2 by push_cast; ring,
      floor_intCast_add_half]
    ring
  · exact floor_intCast_add_half n

theorem round2_eq_intCast_div (q : ℚ) :
    round2 q = (goRound (q * 100) : ℚ) / 100 := rfl

theorem round2_intCast_div (n : ℤ) : round2 ((n : ℚ) / 100) = (n : ℚ) / 100 := by
  rw [round2_eq_intCast_div, show (n : ℚ) / 100 * 100 = (n : ℚ) by ring,
    goRound_intCast]

theorem round2_idem (q : ℚ) : round2 (round2 q) = round2 q := by
  rw [round2_eq_intCast_div q, round2_intCast_div]

theorem round2_zero : round2 0 = 0 := by
  rw [show (0 : ℚ) = ((0 : ℤ) : ℚ) / 100 by norm_num, round2_intCast_div]

@[simp] theorem setImageTitleSlug_id (p : Product) (i : CartItem) :
    (setImageTitleSlug p i).id = i.id := by
  simp only [setImageTitleSlug]
  split_ifs <;> rfl

@[simp] theorem setImageTitleSlug_productID (p : Product) (i : CartItem) :
    (setImageTitleSlug p i).productID = i.productID := by
  simp only [setImageTitleSlug]
  split_ifs <;> rfl

@[simp] theorem setImageTitleSlug_quantity (p : Product) (i : CartItem) :
    (setImageTitleSlug p i).quantity = i.quantity := by
  simp only [setImageTitleSlug]
  split_ifs <;> rfl

@[simp] theorem setImageTitleSlug_color (p : Product) (i : CartItem) :
    (setImageTitleSlug p i).color = i.color := by
  simp only [setImageTitleSlug]
  split_ifs <;> rfl

@[simp] theorem setImageTitleSlug_model (p : Product) (i : CartItem) :
    (setImageTitleSlug p i).model = i.model := by
  simp only [setImageTitleSlug]
  split_ifs <;> rfl

@[simp] theorem setImageTitleSlug_price (p : Product) (i : CartItem) :
    (setImageTitleSlug p i).price = i.price := by
  simp only [setImageTitleSlug]
  split_ifs <;> rfl

@[simp] theorem setImageTitleSlug_totalPrice (p : Product) (i : CartItem) :
    (setImageTitleSlug p i).totalPrice = i.totalPrice := by
  simp only [setImageTitleSlug]
  split_ifs <;> rfl

@[simp] theorem setImageSlug_id (p : Product) (i : CartItem) :
    (setImageSlug p i).id = i.id := by
  simp only [setImageSlug]
  split_ifs <;> rfl

@[simp] theorem setImageSlug_productID (p : Product) (i : CartItem) :
    (setImageSlug p i).productID = i.productID := by
  simp only [setImageSlug]
  split_ifs <;> rfl

@[simp] theorem setImageSlug_quantity (p : Product) (i : CartItem) :
    (setImageSlug p i).quantity = i.quantity := by
  simp only [setImageSlug]
  split_ifs <;> rfl

@[simp] theorem setImageSlug_color (p : Product) (i : CartItem) :
    (setImageSlug p i).color = i.color := by
  simp only [setImageSlug]
  split_ifs <;> rfl

@[simp] theorem setImageSlug_model (p : Product) (i : CartItem) :
    (setImageSlug p i).model = i.model := by
  simp only [setImageSlug]
  split_ifs <;> rfl

@[simp] theorem setImageSlug_title (p : Product) (i : CartItem) :
    (setImageSlug p i).title = i.title := by
  simp only [setImageSlug]
  split_ifs <;> rfl

@[simp] theorem setImageSlug_price (p : Product) (i : CartItem) :
    (setImageSlug p i).price = i.price := by
  simp only [setImageSlug]
  split_ifs <;> rfl

@[simp] theorem setImageSlug_totalPrice (p : Product) (i : CartItem) :
    (setImageSlug p i).totalPrice = i.totalPrice := by
  simp only [setImageSlug]
  split_ifs <;> rfl

@[simp] theorem pricedItem_id (p : Product) (i : CartItem) :
    (pricedItem p i).id = i.id := rfl

@[simp] theorem pricedItem_productID (p : Product) (i : CartItem) :
    (pricedItem p i).productID = i.productID := rfl

@[simp] theorem pricedItem_quantity (p : Product) (i : CartItem) :
    (pricedItem p i).quantity = i.quantity := rfl

@[simp] theorem pricedItem_color (p : Product) (i : CartItem) :
    (pricedItem p i).color = i.color := rfl

@[simp] theorem pricedItem_model (p : Product) (i : CartItem) :
    (pricedItem p i).model = i.model := rfl

@[simp] theorem pricedItem_price (p : Product) (i : CartItem) :
    (pricedItem p i).price = effectivePrice p := rfl

@[simp] theorem pricedItem_totalPrice (p : Product) (i : CartItem) :
    (pricedItem p i).totalPrice =
      round2 (effectivePrice p * (i.quantity : ℚ)) := rfl

@[simp] theorem preparedAddItem_productID (p : Product) (f : ℕ) (i : CartItem) :
    (preparedAddItem p f i).productID = i.productID := by
  simp only [preparedAddItem]
  split <;> simp

@[simp] theorem preparedAddItem_quantity (p : Product) (f : ℕ) (i : CartItem) :
    (preparedAddItem p f i).quantity = i.quantity := by
  simp only [preparedAddItem]
  split <;> simp

@[simp] theorem preparedAddItem_color (p : Product) (f : ℕ) (i : CartItem) :
    (preparedAddItem p f i).color = i.color := by
  simp only [preparedAddItem]
  split <;> simp

@[simp] theorem preparedAddItem_model (p : Product) (f : ℕ) (i : CartItem) :
    (preparedAddItem p f i).model = i.model := by
  simp only [preparedAddItem]
  split <;> simp

@[simp] theorem preparedAddItem_price (p : Product) (f : ℕ) (i : CartItem) :
    (preparedAddItem p f i).price = effectivePrice p := by
  simp only [preparedAddItem]
  split <;> simp

@[simp] theorem preparedAddItem_totalPrice (p : Product) (f : ℕ) (i : CartItem) :
    (preparedAddItem p f i).totalPrice =
      round2 (effectivePrice p * (i.quantity : ℚ)) := by
  simp only [preparedAddItem]
  split <;> simp

@[simp] theorem preparedUpdateItem_quantity (p : Product) (i : CartItem) (inc : Bool) :
    (preparedUpdateItem p i inc).quantity = if inc then 1 else i.quantity := by
  cases inc <;> simp [preparedUpdateItem]

@[simp] theorem preparedUpdateItem_totalPrice (p : Product) (i : CartItem) (inc : Bool) :
    (preparedUpdateItem p i inc).totalPrice =
      round2 (effectivePrice p * (((if inc then 1 else i.quantity) : ℤ) : ℚ)) := by
  cases inc <;> simp [preparedUpdateItem]

@[simp] theorem mergedOf_id (p : Product) (i c : CartItem) :
    (mergedOf p i c).id = c.id := by
  simp [mergedOf]

@[simp] theorem mergedOf_productID (p : Product) (i c : CartItem) :
    (mergedOf p i c).productID = c.productID := by
  simp [mergedOf]

@[simp] theorem mergedOf_quantity (p : Product) (i c : CartItem) :
    (mergedOf p i c).quantity = c.quantity + i.quantity := by
  simp [mergedOf]

@[simp] theorem mergedOf_color (p : Product) (i c : CartItem) :
    (mergedOf p i c).color = c.color := by
  simp [mergedOf]

@[simp] theorem mergedOf_model (p : Product) (i c : CartItem) :
    (mergedOf p i c).model = c.model := by
  simp [mergedOf]

@[simp] theorem mergedOf_price (p : Product) (i c : CartItem) :
    (mergedOf p i c).price = c.price := by
  simp [mergedOf]

@[simp] theorem mergedOf_totalPrice (p : Product) (i c : CartItem) :
    (mergedOf p i c).totalPrice =
      round2 (c.price * ((c.quantity + i.quantity : ℤ) : ℚ)) := by
  simp [mergedOf]

@[simp] theorem updatedLine_quantity (p : Product) (c : CartItem) (q : ℤ) :
    (updatedLine p c q).quantity = q := by
  simp [updatedLine]

@[simp] theorem updatedLine_id (p : Product) (c : CartItem) (q : ℤ) :
    (updatedLine p c q).id = c.id := by
  simp [updatedLine]

@[simp] theorem updatedLine_price (p : Product) (c : CartItem) (q : ℤ) :
    (updatedLine p c q).price = c.price := by
  simp [updatedLine]

@[simp] theorem updatedLine_totalPrice (p : Product) (c : CartItem) (q : ℤ) :
    (updatedLine p c q).totalPrice = round2 (c.price * (q : ℚ)) := by
  simp [updatedLine]

theorem sameVariant_iff (c i : CartItem) :
    sameVariant c i = true ↔
      c.productID = i.productID ∧ c.color = i.color ∧ c.model = i.model := by
  simp [sameVariant]

theorem sameVariant_preparedAddItem (x : CartItem) (p : Product) (f : ℕ)
    (i : CartItem) : sameVariant x (preparedAddItem p f i) = sameVariant x i := by
  simp [sameVariant]

theorem sameVariant_congr_right (x i j : CartItem)
    (h1 : i.productID = j.productID) (h2 : i.color = j.color)
    (h3 : i.model = j.model) : sameVariant x i = sameVariant x j := by
  simp [sameVariant, h1, h2, h3]

theorem sameVariant_mergedOf_left (p : Product) (i c x : CartItem) :
    sameVariant (mergedOf p i c) x = sameVariant c x := by
  simp [sameVariant]

theorem mergeItem_eq_none (p : Product) (i : CartItem) (l : List CartItem)
    (h : ∀ c ∈ l, sameVariant c i = false) : mergeItem p i l = none := by
  induction l with
  | nil => rfl
  | cons c rest ih =>
    have hc := h c (List.mem_cons_self c rest)
    rw [mergeItem, hc, ih fun x hx => h x (List.mem_cons_of_mem c hx)]
    simp

theorem mergeItem_first_match (p : Product) (i : CartItem)
    (pre post : List CartItem) (c : CartItem)
    (hpre : ∀ x ∈ pre, sameVariant x i = false) (hc : sameVariant c i = true) :
    mergeItem p i (pre ++ c :: post) = some (pre ++ mergedOf p i c :: post) := by
  induction pre with
  | nil =>
    rw [List.nil_append, mergeItem, hc]
    simp
  | cons x rest ih =>
    have hx := hpre x (List.mem_cons_self x rest)
    rw [List.cons_append, mergeItem, hx,
      ih fun y hy => hpre y (List.mem_cons_of_mem x hy)]
    simp

theorem updateLoop_eq_none (p : Product) (i : CartItem) (a : CartActions)
    (l : List CartItem) (h : ∀ c ∈ l, sameVariant c i = false) :
    updateLoop p i a l = none := by
  induction l with
  | nil => rfl
  | cons c rest ih =>
    have hc := h c (List.mem_cons_self c rest)
    rw [updateLoop, hc, ih fun x hx => h x (List.mem_cons_of_mem c hx)]
    simp

theorem updateLoop_first_match (p : Product) (i : CartItem) (a : CartActions)
    (pre post : List CartItem) (c : CartItem)
    (hpre : ∀ x ∈ pre, sameVariant x i = false) (hc : sameVariant c i = true) :
    updateLoop p i a (pre ++ c :: post) =
      some ((applyAction p i a c post).map fun rest2 => pre ++ rest2) := by
  induction pre with
  | nil =>
    rw [List.nil_append, updateLoop, hc]
    cases applyAction p i a c post <;> simp [Except.map]
  | cons x rest ih =>
    have hx := hpre x (List.mem_cons_self x rest)
    rw [List.cons_append, updateLoop, hx,
      ih fun y hy => hpre y (List.mem_cons_of_mem x hy)]
    cases applyAction p i a c post <;> simp [Except.map]

theorem foldl_add_totalPrice (l : List CartItem) (a : ℚ) :
    l.foldl (fun acc it => acc + it.totalPrice) a =
      a + (l.map CartItem.totalPrice).sum := by
  induction l generalizing a with
  | nil => simp
  | cons c rest ih => simp [ih, add_assoc]

theorem cartTotal_eq (items : List CartItem) :
    cartTotal items = round2 ((items.map CartItem.totalPrice).sum) := by
  rw [cartTotal, foldl_add_totalPrice, zero_add]

theorem cartTotal_nil : cartTotal [] = 0 := by
  rw [cartTotal_eq]
  simp [round2_zero]

theorem cartTotal_singleton_round2 (c : CartItem) (x : ℚ)
    (h : c.totalPrice = round2 x) : cartTotal [c] = c.totalPrice := by
  rw [cartTotal_eq]
  simp [h, round2_idem]

theorem validateItem_iff (i : CartItem) :
    validateItem i = true ↔ i.productID ≠ 0 ∧ 1 ≤ i.quantity ∧ i.color ≠ "" := by
  simp [validateItem, and_assoc]

theorem validateItem_exItem3 : validateItem exItem3 = true := by decide

theorem validateItem_exItem2 : validateItem exItem2 = true := by decide

theorem sameVariant_exLineB_exItem3 : sameVariant exLineB exItem3 = true := by
  decide

theorem exAdd1_eval : AddToCart exLookup 10 20 7 exItem3 none =
    .ok (some exCart1) := by
  simp only [AddToCart, validateItem_exItem3]
  norm_num [exLookup, exItem3, exProduct, preparedAddItem,
    pricedItem, setImageTitleSlug, effectivePrice, round2, goRound_eq,
    exCart1, exLine1]

theorem exAdd2_eval : AddToCart exLookup 11 21 7 exItem2 (some exCart1) =
    .ok (some exCart2) := by
  simp only [AddToCart, validateItem_exItem2]
  norm_num [exLookup, exItem2, exItem3, exProduct, preparedAddItem,
    pricedItem, setImageTitleSlug, effectivePrice, round2, goRound_eq,
    exCart1, exCart2, exLine1, mergeItem, sameVariant, mergedOf, cartTotal]

theorem exUpdate_eval : UpdateCartItem exLookup 9 7 exItem2 ⟨false, false⟩ none =
    .ok (some exCartU) := by
  simp only [UpdateCartItem, validateItem_exItem2]
  norm_num [exLookup, exItem2, exItem3, exProduct, preparedUpdateItem,
    pricedItem, setImageSlug, effectivePrice, round2, goRound_eq, exCartU,
    exLineU]

theorem exRemove_eval : RemoveCartItem 7 10 (some exCart1) = .ok none := by
  norm_num [RemoveCartItem, exCart1, exLine1, List.findIdx?]

theorem exClear_eval : ClearCart 7 (some exCart1) =
    .ok (some { exCart1 with items := [], totalAmount := 0 }) := by
  norm_num [ClearCart, exCart1]

theorem AddToCart_ok_elim {lookup : ℕ → Option Product} {fi fc uid : ℕ}
    {item : CartItem} {st st' : Option Cart}
    (h : AddToCart lookup fi fc uid item st = .ok st') :
    validateItem item = true ∧
    ∃ product, lookup item.productID = some product ∧
      1 ≤ item.quantity ∧ item.quantity ≤ product.stock ∧
      ((st = none ∧ st' = some
          { id := fc, userID := uid,
            items := [preparedAddItem product fi item],
            totalAmount := (preparedAddItem product fi item).totalPrice }) ∨
       ∃ cart, st = some cart ∧
         ((∃ items,
             mergeItem product (preparedAddItem product fi item) cart.items = some items ∧
             st' = some { cart with items := items, totalAmount := cartTotal items }) ∨
          (mergeItem product (preparedAddItem product fi item) cart.items = none ∧
           st' = some { cart with
             items := cart.items ++ [preparedAddItem product fi item],
             totalAmount :=
               cartTotal (cart.items ++ [preparedAddItem product fi item]) }))) := by
  dsimp only [AddToCart] at h
  split at h
  case isFalse => cases h
  case isTrue hval =>
    refine ⟨hval, ?_⟩
    split at h
    case h_1 => cases h
    case h_2 product hlk =>
      refine ⟨product, hlk, ?_⟩
      split at h
      case isTrue => cases h
      case isFalse hq =>
        split at h
        case isTrue => cases h
        case isFalse hs =>
          refine ⟨by omega, by omega, ?_⟩
          split at h
          case h_1 =>
            injection h with h
            exact Or.inl ⟨rfl, h.symm⟩
          case h_2 cart =>
            refine Or.inr ⟨cart, rfl, ?_⟩
            split at h
            case h_1 items hm =>
              injection h with h
              exact Or.inl ⟨items, hm, h.symm⟩
            case h_2 hm =>
              injection h with h
              exact Or.inr ⟨hm, h.symm⟩

theorem UpdateCartItem_ok_elim {lookup : ℕ → Option Product} {fc uid : ℕ}
    {item : CartItem} {actions : CartActions} {st st' : Option Cart}
    (h : UpdateCartItem lookup fc uid item actions st = .ok st') :
    validateItem item = true ∧
    ∃ product, lookup item.productID = some product ∧
      ((st = none ∧ st' = some
          { id := fc, userID := uid,
            items := [preparedUpdateItem product item actions.increment],
            totalAmount :=
              (preparedUpdateItem product item actions.increment).totalPrice }) ∨
       ∃ cart, st = some cart ∧
         ((∃ items, updateLoop product item actions cart.items = some (.ok items) ∧
             st' = some { cart with items := items, totalAmount := cartTotal items }) ∨
          (updateLoop product item actions cart.items = none ∧
           actions.increment = true ∧
           st' = some { cart with
             items := cart.items ++ [preparedUpdateItem product item true],
             totalAmount :=
               cartTotal (cart.items ++ [preparedUpdateItem product item true]) }))) := by
  dsimp only [UpdateCartItem] at h
  split at h
  case isFalse => cases h
  case isTrue hval =>
    refine ⟨hval, ?_⟩
    split at h
    case h_1 => cases h
    case h_2 product hlk =>
      refine ⟨product, hlk, ?_⟩
      split at h
      case h_1 =>
        injection h with h
        exact Or.inl ⟨rfl, h.symm⟩
      case h_2 cart =>
        refine Or.inr ⟨cart, rfl, ?_⟩
        split at h
        case h_1 e he => cases h
        case h_2 items hl =>
          injection h with h
          exact Or.inl ⟨items, hl, h.symm⟩
        case h_3 hl =>
          split at h
          case isTrue hinc =>
            injection h with h
            exact Or.inr ⟨hl, hinc, h.symm⟩
          case isFalse => cases h

theorem RemoveCartItem_ok_elim {uid itemID : ℕ} {st st' : Option Cart}
    (h : RemoveCartItem uid itemID st = .ok st') :
    ∃ cart, st = some cart ∧
      ∃ i, cart.items.findIdx? (fun it => it.id == itemID) = some i ∧
        ((cart.items.take i ++ cart.items.drop (i + 1) = [] ∧ st' = none) ∨
         st' = some { cart with
           items := cart.items.take i ++ cart.items.drop (i + 1),
           totalAmount :=
             cartTotal (cart.items.take i ++ cart.items.drop (i + 1)) }) := by
  dsimp only [RemoveCartItem] at h
  split at h
  case h_1 => cases h
  case h_2 cart =>
    refine ⟨cart, rfl, ?_⟩
    split at h
    case h_1 => cases h
    case h_2 i hi =>
      refine ⟨i, hi, ?_⟩
      split at h
      case isTrue hemp =>
        injection h with h
        exact Or.inl ⟨List.isEmpty_iff.mp hemp, h.symm⟩
      case isFalse =>
        injection h with h
        exact Or.inr h.symm

theorem ClearCart_ok_elim {uid : ℕ} {st st' : Option Cart}
    (h : ClearCart uid st = .ok st') :
    ∃ cart, st = some cart ∧ cart.userID = uid ∧
      st' = some { cart with items := [], totalAmount := 0 } := by
  dsimp only [ClearCart] at h
  split at h
  case h_1 => cases h
  case h_2 cart =>
    split at h
    case isTrue => cases h
    case isFalse hm =>
      injection h with h
      exact ⟨cart, rfl, by omega, h.symm⟩

theorem GetUserCart_ok_elim {fc uid : ℕ} {c : Cart} {st st' : Option Cart}
    (h : GetUserCart fc uid st = .ok (c, st')) :
    (st = none ∧ c = { id := fc, userID := uid, items := [], totalAmount := 0 } ∧
      st' = some c) ∨
    (∃ cart, st = some cart ∧ c = cart ∧ st' = st) := by
  dsimp only [GetUserCart] at h
  split at h
  case h_1 =>
    injection h with h
    injection h with h1 h2
    exact Or.inl ⟨rfl, h1.symm, by rw [← h1, ← h2]⟩
  case h_2 cart =>
    split at h
    case isTrue => cases h
    case isFalse =>
      injection h with h
      injection h with h1 h2
      exact Or.inr ⟨cart, rfl, h1.symm, h2.symm⟩

theorem totalInvariant_some_cartTotal (c : Cart)
    (h : c.totalAmount = cartTotal c.items) : totalInvariant (some c) := by
  rw [totalInvariant, h, cartTotal_eq]

/-- C1: after every committed mutation (AddToCart, UpdateCartItem,
RemoveCartItem, ClearCart), the persisted cart's total amount equals the
half-away-from-zero 2-decimal rounding of the sum of its lines' total
prices (vacuously 0 when the cart record was deleted, and round2 0 = 0 for
an empty cart). -/
theorem c1_committed_mutation_total (lookup : ℕ → Option Product)
    (fi fc uid itemID : ℕ) (item : CartItem) (actions : CartActions)
    (st : Option Cart) :
    (∀ st', AddToCart lookup fi fc uid item st = .ok st' → totalInvariant st') ∧
    (∀ st', UpdateCartItem lookup fc uid item actions st = .ok st' →
      totalInvariant st') ∧
    (∀ st', RemoveCartItem uid itemID st = .ok st' → totalInvariant st') ∧
    (∀ st', ClearCart uid st = .ok st' → totalInvariant st') := by
  refine ⟨?_, ?_, ?_, ?_⟩
  · intro st' h
    obtain ⟨-, product, -, -, -, hc⟩ := AddToCart_ok_elim h
    rcases hc with ⟨-, rfl⟩ | ⟨cart, -, ⟨items, -, rfl⟩ | ⟨-, rfl⟩⟩
    · simp only [totalInvariant, List.map_cons, List.map_nil, List.sum_cons,
        List.sum_nil, add_zero, preparedAddItem_totalPrice, round2_idem]
    · exact totalInvariant_some_cartTotal _ rfl
    · exact totalInvariant_some_cartTotal _ rfl
  · intro st' h
    obtain ⟨-, product, -, hc⟩ := UpdateCartItem_ok_elim h
    rcases hc with ⟨-, rfl⟩ | ⟨cart, -, ⟨items, -, rfl⟩ | ⟨-, -, rfl⟩⟩
    · simp only [totalInvariant, List.map_cons, List.map_nil, List.sum_cons,
        List.sum_nil, add_zero, preparedUpdateItem_totalPrice, round2_idem]
    · exact totalInvariant_some_cartTotal _ rfl
    · exact totalInvariant_some_cartTotal _ rfl
  · intro st' h
    obtain ⟨cart, -, i, -, hc⟩ := RemoveCartItem_ok_elim h
    rcases hc with ⟨-, rfl⟩ | rfl
    · trivial
    · exact totalInvariant_some_cartTotal _ rfl
  · intro st' h
    obtain ⟨cart, -, -, rfl⟩ := ClearCart_ok_elim h
    simp [totalInvariant, round2_zero]

theorem c1_committed_mutation_total_witness :
    totalInvariant (some exCart1) ∧ totalInvariant (some exCartU) ∧
    totalInvariant (none : Option Cart) ∧
    totalInvariant (some { exCart1 with items := [], totalAmount := 0 }) := by
  refine ⟨?_, ?_, ?_, ?_⟩
  · exact (c1_committed_mutation_total exLookup 10 20 7 0 exItem3
      ⟨false, false⟩ none).1 _ exAdd1_eval
  · exact (c1_committed_mutation_total exLookup 0 9 7 0 exItem2
      ⟨false, false⟩ none).2.1 _ exUpdate_eval
  · exact (c1_committed_mutation_total exLookup 0 0 7 10 exItem3
      ⟨false, false⟩ (some exCart1)).2.2.1 _ exRemove_eval
  · exact (c1_committed_mutation_total exLookup 0 0 7 0 exItem3
      ⟨false, false⟩ (some exCart1)).2.2.2 _ exClear_eval

theorem AddToCart_stock_error {lookup : ℕ → Option Product} {fi fc uid : ℕ}
    {item : CartItem} {st : Option Cart} {product : Product}
    (hval : validateItem item = true)
    (hlk : lookup item.productID = some product)
    (hq : ¬ item.quantity ≤ 0) (hs : item.quantity > product.stock) :
    AddToCart lookup fi fc uid item st =
      .error (.stockExceeded item.quantity product.stock) := by
  unfold AddToCart
  rw [if_pos hval, hlk]
  dsimp only
  rw [if_neg hq, if_pos hs]

theorem UpdateCartItem_loop_error {lookup : ℕ → Option Product} {fc uid : ℕ}
    {item : CartItem} {actions : CartActions} {cart : Cart} {e : CartError}
    {product : Product}
    (hval : validateItem item = true)
    (hlk : lookup item.productID = some product)
    (hl : updateLoop product item actions cart.items = some (.error e)) :
    UpdateCartItem lookup fc uid item actions (some cart) = .error e := by
  unfold UpdateCartItem
  rw [if_pos hval, hlk]
  dsimp only
  rw [hl]

theorem applyAction_inc_stock_error {product : Product} {item c : CartItem}
    {post : List CartItem} {d : Bool}
    (hstock : c.quantity + 1 > product.stock) :
    applyAction product item ⟨true, d⟩ c post =
      .error (.stockExceeded (c.quantity + 1) product.stock) := by
  simp only [applyAction, stockCheckedUpdate]
  simp [hstock]

theorem applyAction_set_stock_error {product : Product} {item c : CartItem}
    {post : List CartItem}
    (hstock : item.quantity > product.stock) :
    applyAction product item ⟨false, false⟩ c post =
      .error (.stockExceeded item.quantity product.stock) := by
  simp only [applyAction, stockCheckedUpdate]
  simp [hstock]

/-- C2: an AddToCart whose requested quantity exceeds the product's stock,
and an UpdateCartItem whose applied Increment or SetQuantity pushes the
matching line's quantity beyond the product's stock, return a StockExceeded
error naming the requested and available quantities, and the persisted cart
is left unchanged (the transaction rolls back, expressed via `commit`). -/
theorem c2_stock_exceeded_rejected (lookup : ℕ → Option Product)
    (product : Product) (fi fc uid : ℕ) (item : CartItem) (st : Option Cart)
    (cart : Cart) (pre post : List CartItem) (c : CartItem) (d : Bool) :
    (validateItem item = true → lookup item.productID = some product →
      item.quantity > product.stock →
      AddToCart lookup fi fc uid item st =
        .error (.stockExceeded item.quantity product.stock) ∧
      commit st (AddToCart lookup fi fc uid item st) = st) ∧
    (validateItem item = true → lookup item.productID = some product →
      st = some cart → cart.items = pre ++ c :: post →
      (∀ x ∈ pre, sameVariant x item = false) → sameVariant c item = true →
      ((c.quantity + 1 > product.stock →
        UpdateCartItem lookup fc uid item ⟨true, d⟩ st =
          .error (.stockExceeded (c.quantity + 1) product.stock) ∧
        commit st (UpdateCartItem lookup fc uid item ⟨true, d⟩ st) = st) ∧
       (item.quantity > product.stock →
        UpdateCartItem lookup fc uid item ⟨false, false⟩ st =
          .error (.stockExceeded item.quantity product.stock) ∧
        commit st (UpdateCartItem lookup fc uid item ⟨false, false⟩ st) = st))) := by
  constructor
  · intro hval hlk hstock
    have hq1 : 1 ≤ item.quantity := ((validateItem_iff item).mp hval).2.1
    have herr := @AddToCart_stock_error lookup fi fc uid item st product
      hval hlk (by omega) hstock
    exact ⟨herr, by rw [herr]; rfl⟩
  · intro hval hlk hst hitems hpre hc
    subst hst
    constructor
    · intro hstock
      have hl : updateLoop product item ⟨true, d⟩ cart.items =
          some (.error (.stockExceeded (c.quantity + 1) product.stock)) := by
        rw [hitems, updateLoop_first_match product item ⟨true, d⟩ pre post c hpre hc,
          applyAction_inc_stock_error hstock]
        rfl
      have herr := @UpdateCartItem_loop_error lookup fc uid item _ cart _
        product hval hlk hl
      exact ⟨herr, by rw [herr]; rfl⟩
    · intro hstock
      have hl : updateLoop product item ⟨false, false⟩ cart.items =
          some (.error (.stockExceeded item.quantity product.stock)) := by
        rw [hitems, updateLoop_first_match product item ⟨false, false⟩ pre post c hpre hc,
          applyAction_set_stock_error hstock]
        rfl
      have herr := @UpdateCartItem_loop_error lookup fc uid item _ cart _
        product hval hlk hl
      exact ⟨herr, by rw [herr]; rfl⟩

theorem c2_stock_exceeded_rejected_witness :
    (AddToCart exLookupLow 1 2 7 exItem3 none =
       .error (.stockExceeded 3 2) ∧
     commit none (AddToCart exLookupLow 1 2 7 exItem3 none) = none) ∧
    (UpdateCartItem exLookupLow 9 7 exItem3 ⟨true, false⟩ (some exCartB) =
       .error (.stockExceeded 3 2) ∧
     commit (some exCartB)
       (UpdateCartItem exLookupLow 9 7 exItem3 ⟨true, false⟩ (some exCartB)) =
       some exCartB) ∧
    (UpdateCartItem exLookupLow 9 7 exItem3 ⟨false, false⟩ (some exCartB) =
       .error (.stockExceeded 3 2) ∧
     commit (some exCartB)
       (UpdateCartItem exLookupLow 9 7 exItem3 ⟨false, false⟩ (some exCartB)) =
       some exCartB) := by
  refine ⟨?_, ?_, ?_⟩
  · exact (c2_stock_exceeded_rejected exLookupLow exProductLow 1 2 7 exItem3
      none exCartB [] [] exLineB false).1 (by decide) rfl (by decide)
  · exact ((c2_stock_exceeded_rejected exLookupLow exProductLow 1 9 7 exItem3
      (some exCartB) exCartB [] [] exLineB false).2 (by decide) rfl rfl rfl
      (by simp) sameVariant_exLineB_exItem3).1 (by decide)
  · exact ((c2_stock_exceeded_rejected exLookupLow exProductLow 1 9 7 exItem3
      (some exCartB) exCartB [] [] exLineB false).2 (by decide) rfl rfl rfl
      (by simp) sameVariant_exLineB_exItem3).2 (by decide)

theorem sameVariant_refl (i : CartItem) : sameVariant i i = true := by
  simp [sameVariant]

theorem sameVariant_preparedAddItem_left (p : Product) (f : ℕ) (i j : CartItem) :
    sameVariant (preparedAddItem p f i) j = sameVariant i j := by
  simp [sameVariant]

theorem validateItem_exItemBlue : validateItem exItemBlue = true := by decide

theorem exAddBlue_eval : AddToCart exLookup 12 22 7 exItemBlue (some exCart2) =
    .ok (some exCart3) := by
  simp only [AddToCart, validateItem_exItemBlue]
  norm_num [exLookup, exItemBlue, exItem3, exProduct, preparedAddItem,
    pricedItem, setImageTitleSlug, effectivePrice, round2, goRound_eq,
    exCart2, exCart3, exLine1, exLineBlue, mergeItem, sameVariant, mergedOf,
    cartTotal, (show ("red" = "blue") = False by simp)]

/-- C3: two successful adds of the same (product, color, model) variant
merge into a single line whose quantity is the sum of both requests, and an
add whose variant matches no existing line is appended as a new line. -/
theorem c3_add_same_variant_merges (lookup : ℕ → Option Product)
    (fi1 fc1 fi2 fc2 uid : ℕ) (item1 item2 : CartItem) (st : Option Cart)
    (cart1 cart2 : Cart)
    (hkey : item2.productID = item1.productID ∧ item2.color = item1.color ∧
      item2.model = item1.model)
    (hst : ∀ cart, st = some cart → ∀ c ∈ cart.items, sameVariant c item1 = false)
    (h1 : AddToCart lookup fi1 fc1 uid item1 st = .ok (some cart1))
    (h2 : AddToCart lookup fi2 fc2 uid item2 (some cart1) = .ok (some cart2)) :
    ((cart2.items.filter fun c => sameVariant c item1).length = 1 ∧
      ∀ c ∈ cart2.items, sameVariant c item1 = true →
        c.quantity = item1.quantity + item2.quantity) ∧
    (∀ (product : Product) (fi fc : ℕ) (item : CartItem) (cartA cartB : Cart),
      (∀ c ∈ cartA.items, sameVariant c item = false) →
      lookup item.productID = some product →
      AddToCart lookup fi fc uid item (some cartA) = .ok (some cartB) →
      cartB.items = cartA.items ++ [preparedAddItem product fi item]) := by
  constructor
  · -- two adds of the same variant
    obtain ⟨hval1, p1, hlk1, -, -, hc1⟩ := AddToCart_ok_elim h1
    have hcart1 : ∃ l, cart1.items = l ++ [preparedAddItem p1 fi1 item1] ∧
        ∀ c ∈ l, sameVariant c item1 = false := by
      rcases hc1 with ⟨-, hok⟩ | ⟨cart0, hst0, hm⟩
      · injection hok with hok
        exact ⟨[], by rw [hok]; simp, by simp⟩
      · have hno := hst cart0 hst0
        rcases hm with ⟨items, hmerge, -⟩ | ⟨-, hok⟩
        · rw [mergeItem_eq_none p1 (preparedAddItem p1 fi1 item1) cart0.items
            (fun c hc => by rw [sameVariant_preparedAddItem]; exact hno c hc)]
            at hmerge
          cases hmerge
        · injection hok with hok
          exact ⟨cart0.items, by rw [hok], hno⟩
    obtain ⟨l, hitems1, hl⟩ := hcart1
    obtain ⟨hval2, p2, hlk2, -, -, hc2⟩ := AddToCart_ok_elim h2
    rcases hc2 with ⟨hnone2, -⟩ | ⟨cart0, hsome, hm⟩
    · cases hnone2
    have hcart0 : cart0 = cart1 := by injection hsome with hsome; exact hsome.symm
    subst hcart0
    have hkey2 : ∀ x, sameVariant x (preparedAddItem p2 fi2 item2) =
        sameVariant x item1 := by
      intro x
      rw [sameVariant_preparedAddItem]
      exact sameVariant_congr_right x item2 item1 hkey.1 hkey.2.1 hkey.2.2
    have hpre : ∀ x ∈ l, sameVariant x (preparedAddItem p2 fi2 item2) = false :=
      fun x hx => by rw [hkey2]; exact hl x hx
    have hcmatch : sameVariant (preparedAddItem p1 fi1 item1)
        (preparedAddItem p2 fi2 item2) = true := by
      rw [hkey2, sameVariant_preparedAddItem_left]
      exact sameVariant_refl item1
    have hfirst := mergeItem_first_match p2 (preparedAddItem p2 fi2 item2) l []
      (preparedAddItem p1 fi1 item1) hpre hcmatch
    rcases hm with ⟨items, hmerge, hok⟩ | ⟨hmerge, -⟩
    · rw [hitems1, show l ++ [preparedAddItem p1 fi1 item1] =
        l ++ preparedAddItem p1 fi1 item1 :: [] from rfl, hfirst] at hmerge
      injection hmerge with hmerge
      injection hok with hok
      have hitems2 : cart2.items =
          l ++ [mergedOf p2 (preparedAddItem p2 fi2 item2)
            (preparedAddItem p1 fi1 item1)] := by
        rw [hok]
        exact hmerge.symm
      have hmergedSv : sameVariant (mergedOf p2 (preparedAddItem p2 fi2 item2)
          (preparedAddItem p1 fi1 item1)) item1 = true := by
        rw [sameVariant_mergedOf_left, sameVariant_preparedAddItem_left]
        exact sameVariant_refl item1
      constructor
      · rw [hitems2, List.filter_append]
        have hfl : l.filter (fun c => sameVariant c item1) = [] :=
          List.filter_eq_nil_iff.mpr fun c hc => by simp [hl c hc]
        rw [hfl]
        simp [hmergedSv]
      · intro c hc hcv
        rw [hitems2] at hc
        rcases List.mem_append.mp hc with hcl | hcr
        · rw [hl c hcl] at hcv
          cases hcv
        · have hceq : c = mergedOf p2 (preparedAddItem p2 fi2 item2)
              (preparedAddItem p1 fi1 item1) := by simpa using hcr
          subst hceq
          simp
    · rw [hitems1, show l ++ [preparedAddItem p1 fi1 item1] =
        l ++ preparedAddItem p1 fi1 item1 :: [] from rfl, hfirst] at hmerge
      cases hmerge
  · -- a non-matching add appends a new line
    intro product fi fc item cartA cartB hnomatch hlk hok
    obtain ⟨hval, p2, hlk2, -, -, hc⟩ := AddToCart_ok_elim hok
    have hp2 : p2 = product := by
      rw [hlk] at hlk2
      injection hlk2 with hlk2
      exact hlk2.symm
    subst hp2
    rcases hc with ⟨hbad, -⟩ | ⟨cart0, hsome, hm⟩
    · cases hbad
    have hcart0 : cartA = cart0 := Option.some.inj hsome
    subst hcart0
    rcases hm with ⟨items, hmerge, -⟩ | ⟨-, hok2⟩
    · rw [mergeItem_eq_none p2 (preparedAddItem p2 fi item) cartA.items
        (fun c hc => by rw [sameVariant_preparedAddItem]; exact hnomatch c hc)]
        at hmerge
      cases hmerge
    · injection hok2 with hok2
      rw [hok2]

theorem c3_add_same_variant_merges_witness :
    ((exCart2.items.filter fun c => sameVariant c exItem3).length = 1 ∧
      ({ exLine1 with quantity := 5, totalPrice := 450 } : CartItem).quantity =
        exItem3.quantity + exItem2.quantity) ∧
    exCart3.items = exCart2.items ++ [preparedAddItem exProduct 12 exItemBlue] := by
  have h := c3_add_same_variant_merges exLookup 10 20 11 21 7 exItem3 exItem2
    none exCart1 exCart2 ⟨rfl, rfl, rfl⟩ (fun cart hc => nomatch hc)
    exAdd1_eval exAdd2_eval
  refine ⟨⟨h.1.1, ?_⟩, ?_⟩
  · exact h.1.2 _ (by simp [exCart2]) (by decide)
  · exact h.2 exProduct 12 22 exItemBlue exCart2 exCart3 (by decide) rfl
      exAddBlue_eval

theorem UpdateCartItem_loop_ok {lookup : ℕ → Option Product} {fc uid : ℕ}
    {item : CartItem} {actions : CartActions} {cart : Cart}
    {items : List CartItem} {product : Product}
    (hval : validateItem item = true)
    (hlk : lookup item.productID = some product)
    (hl : updateLoop product item actions cart.items = some (.ok items)) :
    UpdateCartItem lookup fc uid item actions (some cart) =
      .ok (some { cart with items := items, totalAmount := cartTotal items }) := by
  unfold UpdateCartItem
  rw [if_pos hval, hlk]
  dsimp only
  rw [hl]

theorem UpdateCartItem_absent {lookup : ℕ → Option Product} {fc uid : ℕ}
    {item : CartItem} {actions : CartActions} {product : Product}
    (hval : validateItem item = true)
    (hlk : lookup item.productID = some product) :
    UpdateCartItem lookup fc uid item actions none =
      .ok (some
        { id := fc, userID := uid,
          items := [preparedUpdateItem product item actions.increment],
          totalAmount :=
            (preparedUpdateItem product item actions.increment).totalPrice }) := by
  unfold UpdateCartItem
  rw [if_pos hval, hlk]

theorem applyAction_dec_remove {product : Product} {item c : CartItem}
    {post : List CartItem} (hq : c.quantity - 1 ≤ 0) :
    applyAction product item ⟨false, true⟩ c post = .ok post := by
  simp only [applyAction]
  simp [hq]

/-- C4 counterexample: a cart whose only line has quantity 1, decremented:
the code persists the cart as an empty record (UpdateOne with items = [] and
total 0); it does not delete the cart record (that would be `.ok none`). -/
theorem c4_decrement_last_line_counterexample :
    UpdateCartItem exLookup 9 7 exItem3 ⟨false, true⟩ (some exCartQ1) =
      .ok (some { id := 20, userID := 7, items := [], totalAmount := 0 }) ∧
    UpdateCartItem exLookup 9 7 exItem3 ⟨false, true⟩ (some exCartQ1) ≠
      .ok none := by
  have h : UpdateCartItem exLookup 9 7 exItem3 ⟨false, true⟩ (some exCartQ1) =
      .ok (some { id := 20, userID := 7, items := [], totalAmount := 0 }) := by
    simp only [UpdateCartItem, validateItem_exItem3]
    norm_num [exLookup, exItem3, exProduct, exCartQ1, exLineQ1, exLine1,
      updateLoop, sameVariant, applyAction, cartTotal, round2, goRound_eq]
  exact ⟨h, by rw [h]; simp⟩

/-- C4 (amended): decrementing a matching line of quantity 1 removes the
line from the cart; when that line was the cart's only line the cart record
is persisted as an empty cart (zero lines, total 0) rather than deleted. -/
theorem c4_decrement_removes_line_amended (lookup : ℕ → Option Product)
    (product : Product) (fc uid : ℕ) (item : CartItem) (cart : Cart)
    (pre post : List CartItem) (c : CartItem)
    (hval : validateItem item = true)
    (hlk : lookup item.productID = some product)
    (hitems : cart.items = pre ++ c :: post)
    (hpre : ∀ x ∈ pre, sameVariant x item = false)
    (hc : sameVariant c item = true)
    (hq : c.quantity = 1) :
    UpdateCartItem lookup fc uid item ⟨false, true⟩ (some cart) =
      .ok (some
        { cart with
            items := pre ++ post,
            totalAmount := cartTotal (pre ++ post) }) ∧
    (pre = [] → post = [] →
      UpdateCartItem lookup fc uid item ⟨false, true⟩ (some cart) =
        .ok (some { cart with items := [], totalAmount := 0 })) := by
  have hl : updateLoop product item ⟨false, true⟩ cart.items =
      some (.ok (pre ++ post)) := by
    rw [hitems, updateLoop_first_match product item ⟨false, true⟩ pre post c
      hpre hc, applyAction_dec_remove (by omega)]
    rfl
  have hmain := @UpdateCartItem_loop_ok lookup fc uid item _ cart _ product
    hval hlk hl
  refine ⟨hmain, ?_⟩
  intro hp hq2
  subst hp
  subst hq2
  rw [hmain]
  simp [cartTotal_nil]

theorem c4_decrement_removes_line_amended_witness :
    UpdateCartItem exLookup 9 7 exItem3 ⟨false, true⟩ (some exCartQ1) =
      .ok (some { exCartQ1 with items := [], totalAmount := 0 }) := by
  exact (c4_decrement_removes_line_amended exLookup exProduct 9 7 exItem3
    exCartQ1 [] [] exLineQ1 (by decide) rfl rfl (by simp) (by decide)
    (by decide)).2 rfl rfl

/-- C5 counterexample: for an owner with no cart record, UpdateCartItem
with SetQuantity (neither flag set) does not fail with item-not-found; it
creates and persists a cart holding the caller's line at the supplied
quantity. -/
theorem c5_absent_cart_counterexample :
    UpdateCartItem exLookup 9 7 exItem2 ⟨false, false⟩ none =
      .ok (some exCartU) ∧
    UpdateCartItem exLookup 9 7 exItem2 ⟨false, false⟩ none ≠
      .error .itemNotFound := by
  exact ⟨exUpdate_eval, by rw [exUpdate_eval]; simp⟩

/-- C5 (amended): for an owner with no existing cart, UpdateCartItem with
Increment creates a new cart with exactly one line at quantity 1 (any
caller-supplied quantity is ignored); with Decrement or SetQuantity the
code also creates a new cart, holding the line at the caller-supplied
(validated) quantity — it does not fail with item-not-found. -/
theorem c5_absent_cart_amended (lookup : ℕ → Option Product)
    (product : Product) (fc uid : ℕ) (item : CartItem) (d : Bool)
    (hval : validateItem item = true)
    (hlk : lookup item.productID = some product) :
    (UpdateCartItem lookup fc uid item ⟨true, d⟩ none =
      .ok (some
        { id := fc, userID := uid,
          items := [preparedUpdateItem product item true],
          totalAmount := (preparedUpdateItem product item true).totalPrice }) ∧
     (preparedUpdateItem product item true).quantity = 1) ∧
    (UpdateCartItem lookup fc uid item ⟨false, d⟩ none =
      .ok (some
        { id := fc, userID := uid,
          items := [preparedUpdateItem product item false],
          totalAmount := (preparedUpdateItem product item false).totalPrice }) ∧
     (preparedUpdateItem product item false).quantity = item.quantity) := by
  refine ⟨⟨?_, by simp⟩, ⟨?_, by simp⟩⟩
  · exact @UpdateCartItem_absent lookup fc uid item ⟨true, d⟩ product
      hval hlk
  · exact @UpdateCartItem_absent lookup fc uid item ⟨false, d⟩ product
      hval hlk

theorem c5_absent_cart_amended_witness :
    (UpdateCartItem exLookup 9 7 exItem2 ⟨true, false⟩ none =
      .ok (some
        { id := 9, userID := 7,
          items := [preparedUpdateItem exProduct exItem2 true],
          totalAmount := (preparedUpdateItem exProduct exItem2 true).totalPrice }) ∧
     (preparedUpdateItem exProduct exItem2 true).quantity = 1) ∧
    (UpdateCartItem exLookup 9 7 exItem2 ⟨false, false⟩ none =
      .ok (some
        { id := 9, userID := 7,
          items := [preparedUpdateItem exProduct exItem2 false],
          totalAmount := (preparedUpdateItem exProduct exItem2 false).totalPrice }) ∧
     (preparedUpdateItem exProduct exItem2 false).quantity = exItem2.quantity) := by
  exact c5_absent_cart_amended exLookup exProduct 9 7 exItem2 false
    (by decide) rfl

/-- C6: for every line AddToCart creates, the stored unit price is
round2(price * (1 - discount/100)) when the product's discount is positive
and the raw price otherwise, and the stored line total is round2(unit price
* quantity); concretely, price 100 with discount 10: adding quantity 3
gives unit price 90, line total 270, cart total 270, and a second add of
quantity 2 of the same variant gives quantity 5, line total 450. -/
theorem c6_unit_price_formula (product : Product) (fi : ℕ) (item : CartItem) :
    ((preparedAddItem product fi item).price =
      if product.discount > 0 then
        round2 (product.price * (1 - product.discount / 100))
      else product.price) ∧
    ((preparedAddItem product fi item).totalPrice =
      round2 ((preparedAddItem product fi item).price * (item.quantity : ℚ))) ∧
    (AddToCart exLookup 10 20 7 exItem3 none = .ok (some exCart1) ∧
      exProduct.price = 100 ∧ exProduct.discount = 10 ∧
      exItem3.quantity = 3 ∧ exLine1.price = 90 ∧ exLine1.totalPrice = 270 ∧
      exCart1.totalAmount = 270) ∧
    (AddToCart exLookup 11 21 7 exItem2 (some exCart1) = .ok (some exCart2) ∧
      exItem2.quantity = 2 ∧
      exCart2.items = [{ exLine1 with quantity := 5, totalPrice := 450 }] ∧
      exCart2.totalAmount = 450) := by
  refine ⟨?_, ?_, ⟨exAdd1_eval, rfl, rfl, rfl, rfl, rfl, rfl⟩,
    ⟨exAdd2_eval, rfl, rfl, rfl⟩⟩
  · rw [preparedAddItem_price, effectivePrice]
    split_ifs with h
    · congr 1
      ring
    · rfl
  · rw [preparedAddItem_totalPrice, preparedAddItem_price]

/-- C7: removing a cart's last remaining line by its line ID deletes the
cart record, whereas ClearCart keeps an existing record with zero lines and
total 0 — the two empty end states are distinct. -/
theorem c7_remove_last_vs_clear (uid cartItemID : ℕ) (cart : Cart)
    (c : CartItem) :
    (cart.items = [c] → c.id = cartItemID →
      RemoveCartItem uid cartItemID (some cart) = .ok none) ∧
    (cart.userID = uid →
      ClearCart uid (some cart) =
        .ok (some { cart with items := [], totalAmount := 0 })) ∧
    (Except.ok (some { cart with items := [], totalAmount := 0 }) ≠
      (Except.ok none : Except CartError (Option Cart))) := by
  refine ⟨?_, ?_, by simp⟩
  · intro h1 h2
    simp [RemoveCartItem, h1, h2, List.findIdx?]
  · intro h
    simp [ClearCart, h]

theorem c7_remove_last_vs_clear_witness :
    RemoveCartItem 7 10 (some exCart1) = .ok none ∧
    ClearCart 7 (some exCart1) =
      .ok (some { exCart1 with items := [], totalAmount := 0 }) := by
  have h := c7_remove_last_vs_clear 7 10 exCart1 exLine1
  exact ⟨h.1 rfl rfl, h.2.1 rfl⟩

/-- C9: GetUserCart for an owner with no cart record creates-on-read: it
returns an empty cart owned by that owner (zero lines, total 0) rather
than an error, and persists that same cart to the store. -/
theorem c9_get_cart_create_on_read (fc uid : ℕ) :
    GetUserCart fc uid none =
      .ok ({ id := fc, userID := uid, items := [], totalAmount := 0 },
        some { id := fc, userID := uid, items := [], totalAmount := 0 }) := rfl

/-- C10: when AddToCart merges into an existing matching line, the merged
line keeps the existing line's ID and stored unit-price snapshot, and its
new total is round2(stored price * new quantity) — the freshly fetched
product price is not applied to the merged line. -/
theorem c10_merge_preserves_identity (lookup : ℕ → Option Product)
    (product : Product) (fi fc uid : ℕ) (item : CartItem) (cart cart2 : Cart)
    (pre post : List CartItem) (c : CartItem)
    (hlk : lookup item.productID = some product)
    (hitems : cart.items = pre ++ c :: post)
    (hpre : ∀ x ∈ pre, sameVariant x item = false)
    (hc : sameVariant c item = true)
    (hok : AddToCart lookup fi fc uid item (some cart) = .ok (some cart2)) :
    ∃ c2, cart2.items = pre ++ c2 :: post ∧ c2.id = c.id ∧ c2.price = c.price ∧
      c2.quantity = c.quantity + item.quantity ∧
      c2.totalPrice =
        round2 (c.price * ((c.quantity + item.quantity : ℤ) : ℚ)) := by
  obtain ⟨hval, p2, hlk2, -, -, hcase⟩ := AddToCart_ok_elim hok
  have hp2 : p2 = product := by
    rw [hlk] at hlk2
    exact (Option.some.inj hlk2).symm
  subst hp2
  rcases hcase with ⟨hbad, -⟩ | ⟨cart0, hsome, hm⟩
  · cases hbad
  have hcart0 : cart = cart0 := Option.some.inj hsome
  subst hcart0
  have hpre2 : ∀ x ∈ pre, sameVariant x (preparedAddItem p2 fi item) = false :=
    fun x hx => by rw [sameVariant_preparedAddItem]; exact hpre x hx
  have hc2 : sameVariant c (preparedAddItem p2 fi item) = true := by
    rw [sameVariant_preparedAddItem]
    exact hc
  have hfirst := mergeItem_first_match p2 (preparedAddItem p2 fi item) pre post
    c hpre2 hc2
  rcases hm with ⟨items, hmerge, hok2⟩ | ⟨hmerge, -⟩
  · rw [hitems, hfirst] at hmerge
    injection hmerge with hmerge
    injection hok2 with hok2
    refine ⟨mergedOf p2 (preparedAddItem p2 fi item) c, ?_, by simp, by simp,
      by simp, by simp⟩
    rw [hok2]
    exact hmerge.symm
  · rw [hitems, hfirst] at hmerge
    cases hmerge

theorem c10_merge_preserves_identity_witness :
    ({ exLine1 with quantity := 5, totalPrice := 450 } : CartItem).id =
      exLine1.id ∧
    ({ exLine1 with quantity := 5, totalPrice := 450 } : CartItem).price =
      exLine1.price ∧
    ({ exLine1 with quantity := 5, totalPrice := 450 } : CartItem).quantity =
      exLine1.quantity + exItem2.quantity ∧
    ({ exLine1 with quantity := 5, totalPrice := 450 } : CartItem).totalPrice =
      round2 (exLine1.price * ((exLine1.quantity + exItem2.quantity : ℤ) : ℚ)) := by
  obtain ⟨c2, h1, h2, h3, h4, h5⟩ := c10_merge_preserves_identity exLookup
    exProduct 11 21 7 exItem2 exCart1 exCart2 [] [] exLine1 rfl rfl
    (by simp) (by decide) exAdd2_eval
  have hc2 : c2 = { exLine1 with quantity := 5, totalPrice := 450 } := by
    have h6 : exCart2.items =
        [{ exLine1 with quantity := 5, totalPrice := 450 }] := rfl
    rw [h6] at h1
    exact (List.cons.inj (List.nil_append (c2 :: []) ▸ h1)).1.symm
  subst hc2
  exact ⟨h2, h3, h4, h5⟩

theorem mergeItem_qty {p : Product} {i : CartItem} {l l2 : List CartItem}
    (hl : ∀ c ∈ l, 1 ≤ c.quantity) (hi : 0 ≤ i.quantity)
    (h : mergeItem p i l = some l2) : ∀ c ∈ l2, 1 ≤ c.quantity := by
  induction l generalizing l2 with
  | nil => cases h
  | cons c rest ih =>
    rw [mergeItem] at h
    by_cases hsv : sameVariant c i
    · rw [if_pos hsv] at h
      injection h with h
      subst h
      intro x hx
      rcases List.mem_cons.mp hx with hx | hx
      · subst hx
        have := hl c (List.mem_cons_self c rest)
        simp only [mergedOf_quantity]
        omega
      · exact hl x (List.mem_cons_of_mem c hx)
    · rw [if_neg hsv] at h
      rcases h2 : mergeItem p i rest with - | rest2
      · rw [h2] at h
        cases h
      · rw [h2] at h
        injection h with h
        subst h
        intro x hx
        rcases List.mem_cons.mp hx with hx | hx
        · subst hx
          exact hl x (List.mem_cons_self x rest)
        · exact ih (fun y hy => hl y (List.mem_cons_of_mem c hy)) h2 x hx

theorem stockCheckedUpdate_qty {p : Product} {c : CartItem} {q : ℤ}
    {rest l2 : List CartItem} (hrest : ∀ x ∈ rest, 1 ≤ x.quantity)
    (hq : 1 ≤ q) (h : stockCheckedUpdate p c q rest = .ok l2) :
    ∀ x ∈ l2, 1 ≤ x.quantity := by
  rw [stockCheckedUpdate] at h
  split at h
  · cases h
  · injection h with h
    subst h
    intro x hx
    rcases List.mem_cons.mp hx with hx | hx
    · subst hx
      simpa using hq
    · exact hrest x hx

theorem applyAction_qty {p : Product} {i : CartItem} {a : CartActions}
    {c : CartItem} {rest l2 : List CartItem}
    (hc : 1 ≤ c.quantity) (hrest : ∀ x ∈ rest, 1 ≤ x.quantity)
    (hi : 1 ≤ i.quantity) (h : applyAction p i a c rest = .ok l2) :
    ∀ x ∈ l2, 1 ≤ x.quantity := by
  rw [applyAction] at h
  split at h
  · exact stockCheckedUpdate_qty hrest (by omega) h
  · split at h
    · split at h
      · injection h with h
        subst h
        exact hrest
      case isFalse hq => exact stockCheckedUpdate_qty hrest (by omega) h
    · exact stockCheckedUpdate_qty hrest hi h

theorem updateLoop_qty {p : Product} {i : CartItem} {a : CartActions}
    {l l2 : List CartItem} (hl : ∀ c ∈ l, 1 ≤ c.quantity)
    (hi : 1 ≤ i.quantity) (h : updateLoop p i a l = some (.ok l2)) :
    ∀ c ∈ l2, 1 ≤ c.quantity := by
  induction l generalizing l2 with
  | nil => cases h
  | cons c rest ih =>
    rw [updateLoop] at h
    by_cases hsv : sameVariant c i
    · rw [if_pos hsv] at h
      injection h with h
      exact applyAction_qty (hl c (List.mem_cons_self c rest))
        (fun x hx => hl x (List.mem_cons_of_mem c hx)) hi h
    · rw [if_neg hsv] at h
      rcases h2 : updateLoop p i a rest with - | r2
      · rw [h2] at h
        cases h
      · rcases r2 with e | rest2
        · rw [h2] at h
          injection h with h
          cases h
        · rw [h2] at h
          injection h with h
          injection h with h
          subst h
          intro x hx
          rcases List.mem_cons.mp hx with hx | hx
          · subst hx
            exact hl x (List.mem_cons_self x rest)
          · exact ih (fun y hy => hl y (List.mem_cons_of_mem c hy)) h2 x hx

theorem preparedUpdateItem_qty_ge_one {p : Product} {i : CartItem} {b : Bool}
    (hi : 1 ≤ i.quantity) : 1 ≤ (preparedUpdateItem p i b).quantity := by
  rw [preparedUpdateItem_quantity]
  split
  · omega
  · exact hi

/-- C8: in every store state reachable through the engine's committed
operations, every line of the persisted cart has quantity at least 1:
AddToCart validates and rejects non-positive quantities, Decrement removes
a line that would reach 0 instead of persisting it, and SetQuantity only
writes validated quantities of at least 1. -/
theorem c8_reachable_quantity_ge_one (st : Option Cart) (h : Reachable st) :
    qtyInv st := by
  induction h with
  | init =>
    intro cart hc
    cases hc
  | add lookup fi fc uid item st0 st1 hr hok ih =>
    obtain ⟨hval, product, hlk, hq1, -, hcase⟩ := AddToCart_ok_elim hok
    have hprep : 1 ≤ (preparedAddItem product fi item).quantity := by
      rw [preparedAddItem_quantity]
      exact hq1
    intro cart hcart c hc
    rcases hcase with ⟨-, hok2⟩ | ⟨cart0, hst0, hm⟩
    · rw [hok2] at hcart
      injection hcart with hcart
      subst hcart
      have : c = preparedAddItem product fi item := by simpa using hc
      subst this
      exact hprep
    · have hold : ∀ x ∈ cart0.items, 1 ≤ x.quantity := ih cart0 hst0
      rcases hm with ⟨items, hmerge, hok2⟩ | ⟨-, hok2⟩
      · rw [hok2] at hcart
        injection hcart with hcart
        subst hcart
        exact mergeItem_qty hold (by omega) hmerge c hc
      · rw [hok2] at hcart
        injection hcart with hcart
        subst hcart
        rcases List.mem_append.mp hc with hc | hc
        · exact hold c hc
        · have : c = preparedAddItem product fi item := by simpa using hc
          subst this
          exact hprep
  | update lookup fc uid item actions st0 st1 hr hok ih =>
    obtain ⟨hval, product, hlk, hcase⟩ := UpdateCartItem_ok_elim hok
    have hq1 : 1 ≤ item.quantity := ((validateItem_iff item).mp hval).2.1
    intro cart hcart c hc
    rcases hcase with ⟨-, hok2⟩ | ⟨cart0, hst0, hm⟩
    · rw [hok2] at hcart
      injection hcart with hcart
      subst hcart
      have : c = preparedUpdateItem product item actions.increment := by
        simpa using hc
      subst this
      exact preparedUpdateItem_qty_ge_one hq1
    · have hold : ∀ x ∈ cart0.items, 1 ≤ x.quantity := ih cart0 hst0
      rcases hm with ⟨items, hloop, hok2⟩ | ⟨-, -, hok2⟩
      · rw [hok2] at hcart
        injection hcart with hcart
        subst hcart
        exact updateLoop_qty hold hq1 hloop c hc
      · rw [hok2] at hcart
        injection hcart with hcart
        subst hcart
        rcases List.mem_append.mp hc with hc | hc
        · exact hold c hc
        · have : c = preparedUpdateItem product item true := by simpa using hc
          subst this
          exact preparedUpdateItem_qty_ge_one hq1
  | remove uid itemID st0 st1 hr hok ih =>
    obtain ⟨cart0, hst0, i, -, hcase⟩ := RemoveCartItem_ok_elim hok
    have hold : ∀ x ∈ cart0.items, 1 ≤ x.quantity := ih cart0 hst0
    intro cart hcart c hc
    rcases hcase with ⟨-, hok2⟩ | hok2
    · rw [hok2] at hcart
      cases hcart
    · rw [hok2] at hcart
      injection hcart with hcart
      subst hcart
      rcases List.mem_append.mp hc with hc | hc
      · exact hold c (List.take_subset i cart0.items hc)
      · exact hold c (List.drop_subset (i + 1) cart0.items hc)
  | clear uid st0 st1 hr hok ih =>
    obtain ⟨cart0, hst0, -, hok2⟩ := ClearCart_ok_elim hok
    intro cart hcart c hc
    rw [hok2] at hcart
    injection hcart with hcart
    subst hcart
    cases hc
  | get fc uid c0 st0 st1 hr hok ih =>
    rcases GetUserCart_ok_elim hok with ⟨-, hc0, hok2⟩ | ⟨cart0, hst0, -, hok2⟩
    · intro cart hcart c hc
      rw [hok2, hc0] at hcart
      injection hcart with hcart
      subst hcart
      cases hc
    · intro cart hcart c hc
      rw [hok2] at hcart
      exact ih cart (hst0 ▸ hcart) c hc

theorem c8_reachable_quantity_ge_one_witness : qtyInv (some exCart1) :=
  c8_reachable_quantity_ge_one (some exCart1)
    (Reachable.add exLookup 10 20 7 exItem3 none (some exCart1)
      Reachable.init exAdd1_eval)

end Cliq
